import Mathlib

/-!
# Verification of the synthetic swaption trade generator

Shallow embedding of `Synthetic_Swaption_Trade_Generator_Using_SDV.py`.

Modelling conventions:
* Calendar dates are integers (days relative to an arbitrary epoch); the value
  of `datetime.today().date()` is an explicit parameter `today : ℤ`.
* Randomness is explicit: every call to a `np.random` primitive consumes a
  component of a `Draws` record.  `np.random.randint(lo, hi)` yields an integer
  in `[lo, hi)` (high exclusive); `np.random.uniform(a, b)` yields a rational in
  `[a, b)`; `np.random.choice(xs)` yields `xs.get i` for an index `i : Fin n`.
  `Draws.valid` states that each consumed draw lies in its sampling range.
* Python floats are modelled as exact rationals.  `round(x, 2)` is Python's
  banker's rounding (round-half-to-even), modelled exactly by `pyRound`.
* The driver constants `int(NUM_TRADES * 0.8)` and `int(level3_count * 0.15)`
  are computed with binary floats in Python; at every size used by the claims
  (1000, 10, 200, 2, 34, 7) the float product rounds to the exact value, so the
  exact rational floors used below agree with the script.
-/

/-- Python's `round` to an integer: round half to even (banker's rounding). -/
def pyRound (q : ℚ) : ℤ :=
  if q - (⌊q⌋ : ℚ) < mkRat 1 2 then ⌊q⌋
  else if mkRat 1 2 < q - (⌊q⌋ : ℚ) then ⌊q⌋ + 1
  else if ⌊q⌋ % 2 = 0 then ⌊q⌋ else ⌊q⌋ + 1

/-- Python's `round(x, 2)`: round to two decimal places.  (`mkRat k 100` is
`k / 100`; see `round2_eq_div`.) -/
def round2 (q : ℚ) : ℚ := mkRat (pyRound (q * 100)) 100

lemma round2_eq_div (q : ℚ) : round2 q = (pyRound (q * 100) : ℚ) / 100 := by
  unfold round2
  rw [Rat.mkRat_eq_div]
  norm_num

lemma mkRat_half : (mkRat 1 2 : ℚ) = 1/2 := by
  rw [Rat.mkRat_eq_div]; norm_num

/-- `str(n).zfill(4)` composed with the `"HACKTRD"` prefix handling below:
`zfill w s` left-pads `s` with `'0'` to width `w`. -/
def zfill (w : ℕ) (s : String) : String :=
  String.mk (List.replicate (w - s.length) '0') ++ s

/-- `random_past_date(start_days_ago=730, end_days_ago=30)`:
`days_ago = np.random.randint(30, 730)` and the result is
`datetime.today() - timedelta(days=days_ago)`.  The draw `daysAgo` is a
parameter here; `daysAgoValid` below is its sampling range. -/
def random_past_date (today daysAgo : ℤ) : ℤ := today - daysAgo

/-- Sampling range of `np.random.randint(30, 730)`: the high end is exclusive. -/
def daysAgoValid (d : ℤ) : Prop := 30 ≤ d ∧ d < 730

instance (d : ℤ) : Decidable (daysAgoValid d) := by
  unfold daysAgoValid; infer_instance

/-- `determine_ifrs13_level(currency, expiry_tenor, maturity_tenor, strike)`. -/
def determine_ifrs13_level (currency : String) (expiry_tenor maturity_tenor : ℤ)
    (strike : ℚ) : String :=
  if currency = "USD" ∧ (expiry_tenor = 2 ∨ expiry_tenor = 3)
      ∧ maturity_tenor < 15 ∧ strike < 3 then "Level 2" else "Level 3"

/-- One trade record, the dict returned by `generate_trade`. -/
structure TradeRecord where
  trade_id : String
  trade_id_type : String
  trade_version : ℤ
  product_type : String
  currency : String
  option_type : String
  notional : ℤ
  trade_date : ℤ
  strike : ℚ
  expiry_date : ℤ
  maturity_date : ℤ
  counterparty_id : String
  expiry_tenor : ℤ
  maturity_tenor : ℤ
  ifrs13_level : String
  Day2_Pnl_Above_Threshold : String
deriving DecidableEq, Repr

/-- The explicit random draws one call of `generate_trade` may consume, one
field per `np.random` call site. -/
structure Draws where
  /-- `np.random.randint(30, 730)` inside `random_past_date`. -/
  daysAgo : ℤ
  /-- `np.random.choice([2, 3, 5])`. -/
  expiryIdx : Fin 3
  /-- `np.random.choice([5, 10, 15, 20, 30])`. -/
  maturityIdx : Fin 5
  /-- `np.random.uniform(a, b)` feeding `strike`; `a`, `b` depend on branch. -/
  strikeU : ℚ
  /-- `np.random.choice(["EUR", "GBP", "JPY"])` (forced Level 3 branch). -/
  currencyIdx3 : Fin 3
  /-- `np.random.choice(["EUR", "USD", "GBP", "JPY"])` (unforced branch). -/
  currencyIdx4 : Fin 4
  /-- `np.random.choice([1, 5])` (forced Level 3 branch). -/
  l3ExpiryIdx : Fin 2
  /-- `np.random.choice([15, 20, 30])` (forced Level 3 branch). -/
  l3MaturityIdx : Fin 3
  /-- `np.random.randint(1, 5)` for `trade_version`. -/
  tradeVersionDraw : ℤ
  /-- `np.random.choice(["Payer", "Receiver"])`. -/
  optionIdx : Fin 2
  /-- `np.random.randint(10, 1000)` for `notional`. -/
  notionalDraw : ℤ
  /-- `np.random.randint(1000, 9999)` for `counterparty_id`. -/
  cptyDraw : ℤ
deriving DecidableEq, Repr

/-- Lower bound of the `np.random.uniform` strike draw on each branch. -/
def strikeLow (force_usd_level2 force_level3 : Bool) : ℚ :=
  if force_usd_level2 then mkRat 1 2 else if force_level3 then mkRat 31 10
  else mkRat 1 2

/-- (Exclusive) upper bound of the `np.random.uniform` strike draw on each branch. -/
def strikeHigh (force_usd_level2 force_level3 : Bool) : ℚ :=
  if force_usd_level2 then mkRat 29 10 else if force_level3 then 5 else 5

/-- Every draw consumed on the given branch lies in its sampling range. -/
def Draws.valid (g : Draws) (force_usd_level2 force_level3 : Bool) : Prop :=
  (30 ≤ g.daysAgo ∧ g.daysAgo < 730) ∧
  (strikeLow force_usd_level2 force_level3 ≤ g.strikeU ∧
    g.strikeU < strikeHigh force_usd_level2 force_level3) ∧
  (1 ≤ g.tradeVersionDraw ∧ g.tradeVersionDraw < 5) ∧
  (10 ≤ g.notionalDraw ∧ g.notionalDraw < 1000) ∧
  (1000 ≤ g.cptyDraw ∧ g.cptyDraw < 9999)

instance (g : Draws) (f2 f3 : Bool) : Decidable (g.valid f2 f3) := by
  unfold Draws.valid; infer_instance

/-- `generate_trade(seq_id, force_usd_level2, force_level3)` with explicit
`today` and draws `g`. -/
def generate_trade (today : ℤ) (seq_id : ℕ)
    (force_usd_level2 force_level3 : Bool) (g : Draws) : TradeRecord :=
  let trade_date := random_past_date today g.daysAgo
  let expiry_tenor : ℤ := ([2, 3, 5] : List ℤ).get g.expiryIdx
  let maturity_tenor : ℤ := ([5, 10, 15, 20, 30] : List ℤ).get g.maturityIdx
  let expiry_date := trade_date + expiry_tenor * 365
  let maturity_date := trade_date + maturity_tenor * 365
  -- the if/elif/else over the forcing flags; the forced Level 3 branch
  -- re-draws the tenors and recomputes both dates
  let b : ℚ × String × ℤ × ℤ × ℤ × ℤ :=
    if force_usd_level2 then
      (round2 g.strikeU, "USD", expiry_tenor, maturity_tenor,
        expiry_date, maturity_date)
    else if force_level3 then
      let strike := round2 g.strikeU
      let currency := (["EUR", "GBP", "JPY"] : List String).get g.currencyIdx3
      let expiry_tenor : ℤ := ([1, 5] : List ℤ).get g.l3ExpiryIdx
      let maturity_tenor : ℤ := ([15, 20, 30] : List ℤ).get g.l3MaturityIdx
      (strike, currency, expiry_tenor, maturity_tenor,
        trade_date + expiry_tenor * 365, trade_date + maturity_tenor * 365)
    else
      (round2 g.strikeU,
        (["EUR", "USD", "GBP", "JPY"] : List String).get g.currencyIdx4,
        expiry_tenor, maturity_tenor, expiry_date, maturity_date)
  let strike := b.1
  let currency := b.2.1
  let expiry_tenor := b.2.2.1
  let maturity_tenor := b.2.2.2.1
  let expiry_date := b.2.2.2.2.1
  let maturity_date := b.2.2.2.2.2
  let level := determine_ifrs13_level currency expiry_tenor maturity_tenor strike
  { trade_id := "HACKTRD" ++ zfill 4 (toString seq_id)
    trade_id_type := "HackTradeID"
    trade_version := g.tradeVersionDraw
    product_type := "IR Swaption"
    currency := currency
    option_type := (["Payer", "Receiver"] : List String).get g.optionIdx
    notional := g.notionalDraw * 100000
    trade_date := trade_date
    strike := strike
    expiry_date := expiry_date
    maturity_date := maturity_date
    counterparty_id := "CPTY" ++ toString g.cptyDraw
    expiry_tenor := expiry_tenor
    maturity_tenor := maturity_tenor
    ifrs13_level := level
    Day2_Pnl_Above_Threshold := "No" }

/-- `level2_count = int(NUM_TRADES * 0.8)`: as an exact rational,
`NUM_TRADES * (8/10) = (8 * NUM_TRADES)/10`, and the Python float product is
exact at the sizes the claims use, so this floor agrees with the script. -/
def level2_count (numTrades : ℕ) : ℕ := (⌊(mkRat (8 * numTrades) 10 : ℚ)⌋).toNat

/-- `level3_count = NUM_TRADES - level2_count`. -/
def level3_count (numTrades : ℕ) : ℕ := numTrades - level2_count numTrades

/-- `level3_yes_count = int(level3_count * 0.15)`: as an exact rational,
`level3_count * (15/100) = (15 * level3_count)/100`; the float product rounds
to the exact value at the sizes the claims use. -/
def level3_yes_count (numTrades : ℕ) : ℕ :=
  (⌊(mkRat (15 * level3_count numTrades) 100 : ℚ)⌋).toNat

/-- `level3_no_count = level3_count - level3_yes_count`. -/
def level3_no_count (numTrades : ℕ) : ℕ :=
  level3_count numTrades - level3_yes_count numTrades

/-- The driver's three generation loops, as the list of
`(seq_id, force_usd_level2, force_level3, Day2_Pnl_Above_Threshold)` tuples it
iterates over, in order. -/
def seedPlan (numTrades : ℕ) : List (ℕ × Bool × Bool × String) :=
  (List.range' 1 (level2_count numTrades)).map (fun i => (i, true, false, "No"))
  ++ (List.range' (level2_count numTrades + 1) (level3_yes_count numTrades)).map
      (fun i => (i, false, true, "Yes"))
  ++ (List.range' (level2_count numTrades + 1 + level3_yes_count numTrades)
      (level3_no_count numTrades)).map (fun i => (i, false, true, "No"))

/-- One loop body of the driver: call `generate_trade` with the planned flags
and overwrite `Day2_Pnl_Above_Threshold` with the planned value. -/
def buildSeedRecord (today : ℤ) (gs : ℕ → Draws)
    (x : ℕ × Bool × Bool × String) : TradeRecord :=
  { generate_trade today x.1 x.2.1 x.2.2.1 (gs x.1) with
      Day2_Pnl_Above_Threshold := x.2.2.2 }

/-- The seed dataset `data` built by the driver, with `gs i` the draws consumed
by the call with `seq_id = i`. -/
def seedData (today : ℤ) (numTrades : ℕ) (gs : ℕ → Draws) : List TradeRecord :=
  (seedPlan numTrades).map (buildSeedRecord today gs)

/-- The notional post-processing applied to each synthesized row:
`round(x / 100_000) * 100_000` cast to `int`. -/
def postprocess_notional (x : ℚ) : ℤ := pyRound (x / 100000) * 100000

/-! ## Helper lemmas about rounding -/

lemma floor_le_pyRound (q : ℚ) : ⌊q⌋ ≤ pyRound q := by
  unfold pyRound
  split_ifs <;> omega

lemma pyRound_le_floor_add_one (q : ℚ) : pyRound q ≤ ⌊q⌋ + 1 := by
  unfold pyRound
  split_ifs <;> omega

lemma le_pyRound (q : ℚ) (A : ℤ) (h : (A : ℚ) ≤ q) : A ≤ pyRound q :=
  le_trans (Int.le_floor.mpr h) (floor_le_pyRound q)

lemma pyRound_le (q : ℚ) (B : ℤ) (h : q ≤ (B : ℚ)) : pyRound q ≤ B := by
  have hfl : ⌊q⌋ ≤ B := by
    have := Int.floor_le_floor h
    simpa using this
  unfold pyRound
  rw [mkRat_half]
  split_ifs with h1 h2 h3
  · exact hfl
  · have hq : (⌊q⌋ : ℚ) < q := by linarith
    have : (⌊q⌋ : ℚ) < (B : ℚ) := lt_of_lt_of_le hq h
    have : ⌊q⌋ < B := by exact_mod_cast this
    omega
  · exact hfl
  · have hr : q - (⌊q⌋ : ℚ) = 1/2 := le_antisymm (not_lt.mp h2) (not_lt.mp h1)
    have hq : (⌊q⌋ : ℚ) < q := by linarith
    have : (⌊q⌋ : ℚ) < (B : ℚ) := lt_of_lt_of_le hq h
    have : ⌊q⌋ < B := by exact_mod_cast this
    omega

lemma le_round2 (u : ℚ) (A : ℤ) (h : (A : ℚ) ≤ u * 100) :
    (A : ℚ) / 100 ≤ round2 u := by
  rw [round2_eq_div]
  have : (A : ℚ) ≤ (pyRound (u * 100) : ℚ) := by
    exact_mod_cast le_pyRound (u * 100) A h
  linarith

lemma round2_le (u : ℚ) (B : ℤ) (h : u * 100 ≤ (B : ℚ)) :
    round2 u ≤ (B : ℚ) / 100 := by
  rw [round2_eq_div]
  have : (pyRound (u * 100) : ℚ) ≤ (B : ℚ) := by
    exact_mod_cast pyRound_le (u * 100) B h
  linarith

lemma round2_hundredths (u : ℚ) : ∃ k : ℤ, round2 u = (k : ℚ) / 100 :=
  ⟨pyRound (u * 100), round2_eq_div u⟩

/-! ## Helper lemmas about `determine_ifrs13_level` -/

lemma determine_level2_iff (c : String) (e m : ℤ) (s : ℚ) :
    determine_ifrs13_level c e m s = "Level 2" ↔
      (c = "USD" ∧ (e = 2 ∨ e = 3) ∧ m < 15 ∧ s < 3) := by
  unfold determine_ifrs13_level
  split_ifs with h <;> simp [h]

lemma determine_level3_iff (c : String) (e m : ℤ) (s : ℚ) :
    determine_ifrs13_level c e m s = "Level 3" ↔
      ¬(c = "USD" ∧ (e = 2 ∨ e = 3) ∧ m < 15 ∧ s < 3) := by
  unfold determine_ifrs13_level
  split_ifs with h <;> simp [h]

lemma determine_ne_usd (c : String) (e m : ℤ) (s : ℚ) (hc : c ≠ "USD") :
    determine_ifrs13_level c e m s = "Level 3" :=
  (determine_level3_iff c e m s).mpr (fun h => hc h.1)

lemma generate_level_eq (today : ℤ) (seq_id : ℕ) (f2 f3 : Bool) (g : Draws) :
    (generate_trade today seq_id f2 f3 g).ifrs13_level =
      determine_ifrs13_level (generate_trade today seq_id f2 f3 g).currency
        (generate_trade today seq_id f2 f3 g).expiry_tenor
        (generate_trade today seq_id f2 f3 g).maturity_tenor
        (generate_trade today seq_id f2 f3 g).strike := by
  cases f2 <;> cases f3 <;> rfl

/-! ## Field-level facts about `generate_trade` on each branch -/

lemma gen_l2_currency (today : ℤ) (s : ℕ) (f3 : Bool) (g : Draws) :
    (generate_trade today s true f3 g).currency = "USD" := rfl

lemma gen_l2_strike (today : ℤ) (s : ℕ) (f3 : Bool) (g : Draws) :
    (generate_trade today s true f3 g).strike = round2 g.strikeU := rfl

lemma gen_l3_currency (today : ℤ) (s : ℕ) (g : Draws) :
    (generate_trade today s false true g).currency =
      (["EUR", "GBP", "JPY"] : List String).get g.currencyIdx3 := rfl

lemma gen_l3_strike (today : ℤ) (s : ℕ) (g : Draws) :
    (generate_trade today s false true g).strike = round2 g.strikeU := rfl

lemma gen_l3_expiry_tenor (today : ℤ) (s : ℕ) (g : Draws) :
    (generate_trade today s false true g).expiry_tenor =
      ([1, 5] : List ℤ).get g.l3ExpiryIdx := rfl

lemma gen_l3_maturity_tenor (today : ℤ) (s : ℕ) (g : Draws) :
    (generate_trade today s false true g).maturity_tenor =
      ([15, 20, 30] : List ℤ).get g.l3MaturityIdx := rfl

lemma gen_notional (today : ℤ) (s : ℕ) (f2 f3 : Bool) (g : Draws) :
    (generate_trade today s f2 f3 g).notional = g.notionalDraw * 100000 := by
  cases f2 <;> cases f3 <;> rfl

lemma fin3_currency_cases : ∀ i : Fin 3,
    (["EUR", "GBP", "JPY"] : List String).get i = "EUR" ∨
    (["EUR", "GBP", "JPY"] : List String).get i = "GBP" ∨
    (["EUR", "GBP", "JPY"] : List String).get i = "JPY" := by decide

lemma fin3_currency_ne_usd : ∀ i : Fin 3,
    (["EUR", "GBP", "JPY"] : List String).get i ≠ "USD" := by decide

lemma fin2_l3_expiry_cases : ∀ i : Fin 2,
    ([1, 5] : List ℤ).get i = 1 ∨ ([1, 5] : List ℤ).get i = 5 := by decide

lemma fin3_l3_maturity_cases : ∀ i : Fin 3,
    ([15, 20, 30] : List ℤ).get i = 15 ∨ ([15, 20, 30] : List ℤ).get i = 20 ∨
    ([15, 20, 30] : List ℤ).get i = 30 := by decide

lemma gen_l3_level (today : ℤ) (s : ℕ) (g : Draws) :
    (generate_trade today s false true g).ifrs13_level = "Level 3" := by
  rw [generate_level_eq, gen_l3_currency]
  exact determine_ne_usd _ _ _ _ (fin3_currency_ne_usd g.currencyIdx3)

/-- The strike drawn on the forced Level 2 branch is strictly below 3.0. -/
lemma gen_l2_strike_lt_three (today : ℤ) (s : ℕ) (g : Draws)
    (h : Draws.valid g true false) :
    (generate_trade today s true false g).strike < 3 := by
  rw [gen_l2_strike]
  have hu : g.strikeU < 29/10 := by
    have := h.2.1.2
    simpa [strikeHigh, Rat.mkRat_eq_div] using this
  have : round2 g.strikeU ≤ (290 : ℤ) / 100 := round2_le _ 290 (by push_cast; linarith)
  calc round2 g.strikeU ≤ (290 : ℤ) / 100 := this
    _ < 3 := by norm_num

/-- The strike drawn on the forced Level 3 branch is strictly above 3.0. -/
lemma gen_l3_strike_gt_three (today : ℤ) (s : ℕ) (g : Draws)
    (h : Draws.valid g false true) :
    3 < (generate_trade today s false true g).strike := by
  rw [gen_l3_strike]
  have hu : 31/10 ≤ g.strikeU := by
    have := h.2.1.1
    simpa [strikeLow, Rat.mkRat_eq_div] using this
  have : (310 : ℤ) / 100 ≤ round2 g.strikeU := le_round2 _ 310 (by push_cast; linarith)
  calc (3 : ℚ) < (310 : ℤ) / 100 := by norm_num
    _ ≤ round2 g.strikeU := this

lemma gen_l3_strike_le_five (today : ℤ) (s : ℕ) (g : Draws)
    (h : Draws.valid g false true) :
    (generate_trade today s false true g).strike ≤ 5 := by
  rw [gen_l3_strike]
  have hu : g.strikeU < 5 := by
    have := h.2.1.2
    simpa [strikeHigh] using this
  have : round2 g.strikeU ≤ (500 : ℤ) / 100 := round2_le _ 500 (by push_cast; linarith)
  calc round2 g.strikeU ≤ (500 : ℤ) / 100 := this
    _ = 5 := by norm_num

/-! ## Claims -/

/-- A concrete, in-range set of draws for a `force_usd_level2=True` call in
which `np.random.choice([2, 3, 5])` returned 5 (index 2). -/
def gBadL2 : Draws :=
  { daysAgo := 30, expiryIdx := 2, maturityIdx := 0, strikeU := 1,
    currencyIdx3 := 0, currencyIdx4 := 0, l3ExpiryIdx := 0, l3MaturityIdx := 0,
    tradeVersionDraw := 1, optionIdx := 0, notionalDraw := 10, cptyDraw := 1000 }

/-- C1: the claim says every record generated with `force_usd_level2=True` has
`currency = "USD"` and `ifrs13_level = "Level 2"`.  The currency part holds, but
the branch does not override the tenor draws, so a draw of `expiry_tenor = 5`
(in range for `np.random.choice([2, 3, 5])`) makes `determine_ifrs13_level`
return `"Level 3"`: the code contradicts the claim (and its own
`force_usd_level2` name and `# Generate Level 2 trades` driver comment). -/
theorem C1_forced_level2_mislabels :
    Draws.valid gBadL2 true false ∧
    (generate_trade 0 1 true false gBadL2).currency = "USD" ∧
    (generate_trade 0 1 true false gBadL2).expiry_tenor = 5 ∧
    (generate_trade 0 1 true false gBadL2).ifrs13_level = "Level 3" := by
  refine ⟨by decide, rfl, rfl, by decide⟩

/-- C2: `determine_ifrs13_level` returns `"Level 2"` exactly when
`currency = "USD"`, `expiry_tenor ∈ {2, 3}`, `maturity_tenor < 15` and
`strike < 3.0`, and `"Level 3"` otherwise; and every record returned by
`generate_trade` (any forcing flags) carries the label obtained by applying
`determine_ifrs13_level` to its own final fields. -/
theorem C2_level_rule_and_consistency :
    (∀ (c : String) (e m : ℤ) (s : ℚ),
      (determine_ifrs13_level c e m s = "Level 2" ↔
        (c = "USD" ∧ (e = 2 ∨ e = 3) ∧ m < 15 ∧ s < 3)) ∧
      (determine_ifrs13_level c e m s = "Level 3" ↔
        ¬(c = "USD" ∧ (e = 2 ∨ e = 3) ∧ m < 15 ∧ s < 3))) ∧
    (∀ (today : ℤ) (seq_id : ℕ) (f2 f3 : Bool) (g : Draws),
      (generate_trade today seq_id f2 f3 g).ifrs13_level =
        determine_ifrs13_level (generate_trade today seq_id f2 f3 g).currency
          (generate_trade today seq_id f2 f3 g).expiry_tenor
          (generate_trade today seq_id f2 f3 g).maturity_tenor
          (generate_trade today seq_id f2 f3 g).strike) :=
  ⟨fun c e m s => ⟨determine_level2_iff c e m s, determine_level3_iff c e m s⟩,
   generate_level_eq⟩

lemma gen_l3_strike_ge (today : ℤ) (s : ℕ) (g : Draws)
    (h : Draws.valid g false true) :
    (31/10 : ℚ) ≤ (generate_trade today s false true g).strike := by
  rw [gen_l3_strike]
  have hu : 31/10 ≤ g.strikeU := by
    have := h.2.1.1
    simpa [strikeLow, Rat.mkRat_eq_div] using this
  have h310 : ((310 : ℤ) : ℚ) / 100 ≤ round2 g.strikeU :=
    le_round2 _ 310 (by push_cast; linarith)
  calc (31/10 : ℚ) = ((310 : ℤ) : ℚ) / 100 := by norm_num
    _ ≤ round2 g.strikeU := h310

/-- A concrete, in-range set of draws for a `force_level3=True` call. -/
def gGoodL3 : Draws :=
  { daysAgo := 100, expiryIdx := 0, maturityIdx := 1, strikeU := 4,
    currencyIdx3 := 1, currencyIdx4 := 0, l3ExpiryIdx := 1, l3MaturityIdx := 2,
    tradeVersionDraw := 2, optionIdx := 1, notionalDraw := 500, cptyDraw := 4321 }

/-- C3: every record generated with `force_level3=True` is labeled
`"Level 3"`; its currency comes from `{EUR, GBP, JPY}`, its strike is a
two-decimal value in `[3.1, 5.0]`, its expiry tenor is drawn from `{1, 5}` and
its maturity tenor from `{15, 20, 30}`. -/
theorem C3_forced_level3_fields (today : ℤ) (seq_id : ℕ) (g : Draws)
    (h : Draws.valid g false true) :
    (generate_trade today seq_id false true g).ifrs13_level = "Level 3" ∧
    ((generate_trade today seq_id false true g).currency = "EUR" ∨
      (generate_trade today seq_id false true g).currency = "GBP" ∨
      (generate_trade today seq_id false true g).currency = "JPY") ∧
    (31/10 : ℚ) ≤ (generate_trade today seq_id false true g).strike ∧
    (generate_trade today seq_id false true g).strike ≤ 5 ∧
    (∃ k : ℤ, (generate_trade today seq_id false true g).strike = (k : ℚ) / 100) ∧
    ((generate_trade today seq_id false true g).expiry_tenor = 1 ∨
      (generate_trade today seq_id false true g).expiry_tenor = 5) ∧
    ((generate_trade today seq_id false true g).maturity_tenor = 15 ∨
      (generate_trade today seq_id false true g).maturity_tenor = 20 ∨
      (generate_trade today seq_id false true g).maturity_tenor = 30) := by
  refine ⟨gen_l3_level today seq_id g, ?_, gen_l3_strike_ge today seq_id g h,
    gen_l3_strike_le_five today seq_id g h, ?_, ?_, ?_⟩
  · rw [gen_l3_currency]; exact fin3_currency_cases g.currencyIdx3
  · rw [gen_l3_strike]; exact round2_hundredths g.strikeU
  · rw [gen_l3_expiry_tenor]; exact fin2_l3_expiry_cases g.l3ExpiryIdx
  · rw [gen_l3_maturity_tenor]; exact fin3_l3_maturity_cases g.l3MaturityIdx

/-- Witness for `C3_forced_level3_fields` at concrete draws. -/
theorem C3_forced_level3_fields_witness :
    Draws.valid gGoodL3 false true ∧
    ((generate_trade 0 9 false true gGoodL3).ifrs13_level = "Level 3" ∧
    ((generate_trade 0 9 false true gGoodL3).currency = "EUR" ∨
      (generate_trade 0 9 false true gGoodL3).currency = "GBP" ∨
      (generate_trade 0 9 false true gGoodL3).currency = "JPY") ∧
    (31/10 : ℚ) ≤ (generate_trade 0 9 false true gGoodL3).strike ∧
    (generate_trade 0 9 false true gGoodL3).strike ≤ 5 ∧
    (∃ k : ℤ, (generate_trade 0 9 false true gGoodL3).strike = (k : ℚ) / 100) ∧
    ((generate_trade 0 9 false true gGoodL3).expiry_tenor = 1 ∨
      (generate_trade 0 9 false true gGoodL3).expiry_tenor = 5) ∧
    ((generate_trade 0 9 false true gGoodL3).maturity_tenor = 15 ∨
      (generate_trade 0 9 false true gGoodL3).maturity_tenor = 20 ∨
      (generate_trade 0 9 false true gGoodL3).maturity_tenor = 30)) :=
  ⟨by decide, C3_forced_level3_fields 0 9 gGoodL3 (by decide)⟩

lemma gen_dates (today : ℤ) (seq_id : ℕ) (f2 f3 : Bool) (g : Draws) :
    (generate_trade today seq_id f2 f3 g).expiry_date =
      (generate_trade today seq_id f2 f3 g).trade_date +
        (generate_trade today seq_id f2 f3 g).expiry_tenor * 365 ∧
    (generate_trade today seq_id f2 f3 g).maturity_date =
      (generate_trade today seq_id f2 f3 g).trade_date +
        (generate_trade today seq_id f2 f3 g).maturity_tenor * 365 := by
  cases f2 <;> cases f3 <;> exact ⟨rfl, rfl⟩

/-- C4: in every forcing mode (including after the forced Level 3 tenor
override) the dates are `trade_date + tenor * 365` days, computed from the
record's final tenor fields. -/
theorem C4_date_arithmetic (today : ℤ) (seq_id : ℕ) (f2 f3 : Bool) (g : Draws) :
    (generate_trade today seq_id f2 f3 g).expiry_date =
      (generate_trade today seq_id f2 f3 g).trade_date +
        (generate_trade today seq_id f2 f3 g).expiry_tenor * 365 ∧
    (generate_trade today seq_id f2 f3 g).maturity_date =
      (generate_trade today seq_id f2 f3 g).trade_date +
        (generate_trade today seq_id f2 f3 g).maturity_tenor * 365 :=
  gen_dates today seq_id f2 f3 g

lemma fin3_expiry_le_five : ∀ i : Fin 3, ([2, 3, 5] : List ℤ).get i ≤ 5 := by
  decide

lemma fin5_maturity_ge_five : ∀ i : Fin 5,
    5 ≤ ([5, 10, 15, 20, 30] : List ℤ).get i := by decide

lemma fin2_l3_expiry_le_five : ∀ i : Fin 2, ([1, 5] : List ℤ).get i ≤ 5 := by
  decide

lemma fin3_l3_maturity_ge_fifteen : ∀ i : Fin 3,
    15 ≤ ([15, 20, 30] : List ℤ).get i := by decide

/-- C10: in every forcing mode the maturity tenor is at least the expiry tenor
(the smallest drawable maturity tenor is at least the largest drawable expiry
tenor), and hence the maturity date is not before the expiry date. -/
theorem C10_tenor_ordering (today : ℤ) (seq_id : ℕ) (f2 f3 : Bool) (g : Draws) :
    (generate_trade today seq_id f2 f3 g).expiry_tenor ≤
      (generate_trade today seq_id f2 f3 g).maturity_tenor ∧
    (generate_trade today seq_id f2 f3 g).expiry_date ≤
      (generate_trade today seq_id f2 f3 g).maturity_date := by
  have hd := gen_dates today seq_id f2 f3 g
  have ht : (generate_trade today seq_id f2 f3 g).expiry_tenor ≤
      (generate_trade today seq_id f2 f3 g).maturity_tenor := by
    cases f2 <;> cases f3
    · exact le_trans (fin3_expiry_le_five g.expiryIdx)
        (fin5_maturity_ge_five g.maturityIdx)
    · exact le_trans (fin2_l3_expiry_le_five g.l3ExpiryIdx)
        (le_trans (by norm_num) (fin3_l3_maturity_ge_fifteen g.l3MaturityIdx))
    · exact le_trans (fin3_expiry_le_five g.expiryIdx)
        (fin5_maturity_ge_five g.maturityIdx)
    · exact le_trans (fin3_expiry_le_five g.expiryIdx)
        (fin5_maturity_ge_five g.maturityIdx)
  refine ⟨ht, ?_⟩
  rw [hd.1, hd.2]
  omega

/-- C8 counterexample: the claim asserts `trade_date` can be exactly 730 days
before the current date, but `np.random.randint(30, 730)` never returns 730
(the high end is exclusive), so no valid draw reaches it. -/
theorem C8_counterexample_730_unattainable :
    ¬ ∃ d : ℤ, daysAgoValid d ∧ random_past_date 0 d = -730 := by
  rintro ⟨d, hd, he⟩
  unfold daysAgoValid at hd
  unfold random_past_date at he
  omega

/-- C8 amended: `trade_date` is between 30 and 729 days before the current
date inclusive, uniformly over the integer draws in that range; both endpoints
are attainable (and 730 is not, by `C8_counterexample_730_unattainable`). -/
theorem C8_amended_past_date_range (today d : ℤ) (h : daysAgoValid d) :
    (today - 730 < random_past_date today d ∧
      random_past_date today d ≤ today - 30) ∧
    (∃ dOld : ℤ, daysAgoValid dOld ∧ random_past_date today dOld = today - 729) ∧
    (∃ dNew : ℤ, daysAgoValid dNew ∧ random_past_date today dNew = today - 30) := by
  unfold daysAgoValid at h
  unfold daysAgoValid random_past_date
  exact ⟨⟨by omega, by omega⟩, ⟨729, by omega, by omega⟩, ⟨30, by omega, by omega⟩⟩

/-- Witness for `C8_amended_past_date_range` at a concrete draw. -/
theorem C8_amended_past_date_range_witness :
    daysAgoValid 42 ∧
    ((0 - 730 < random_past_date 0 42 ∧ random_past_date 0 42 ≤ 0 - 30) ∧
    (∃ dOld : ℤ, daysAgoValid dOld ∧ random_past_date 0 dOld = 0 - 729) ∧
    (∃ dNew : ℤ, daysAgoValid dNew ∧ random_past_date 0 dNew = 0 - 30)) :=
  ⟨by decide, C8_amended_past_date_range 0 42 (by decide)⟩

/-- C7 counterexample: the post-processing `round(x/100_000)*100_000` does not
by itself force the result into `[1,000,000, 99,900,000]`; on a synthesized
notional of 200,000,000 it returns 200,000,000. -/
theorem C7_counterexample_range_not_enforced :
    postprocess_notional 200000000 = 200000000 ∧
    99900000 < postprocess_notional 200000000 := by
  have h1 : ((200000000 : ℚ) / 100000) = 2000 := by norm_num
  have h : postprocess_notional 200000000 = 200000000 := by
    unfold postprocess_notional pyRound
    rw [h1]
    norm_num [Rat.mkRat_eq_div]
  exact ⟨h, by rw [h]; norm_num⟩

/-- C7 amended: every seed record's notional is a multiple of 100,000 in
`[1,000,000, 99,900,000]`; the post-processing always returns a multiple of
100,000, and returns a value in `[1,000,000, 99,900,000]` whenever the
synthesized notional it is applied to lies in that range — but it does not
enforce the range for out-of-range synthesized values
(`C7_counterexample_range_not_enforced`). -/
theorem C7_amended_notional (today : ℤ) (seq_id : ℕ) (f2 f3 : Bool) (g : Draws)
    (h : Draws.valid g f2 f3) (x y : ℚ)
    (hx : (1000000 : ℚ) ≤ x ∧ x ≤ 99900000) :
    ((generate_trade today seq_id f2 f3 g).notional % 100000 = 0 ∧
      1000000 ≤ (generate_trade today seq_id f2 f3 g).notional ∧
      (generate_trade today seq_id f2 f3 g).notional ≤ 99900000) ∧
    (postprocess_notional y % 100000 = 0) ∧
    (1000000 ≤ postprocess_notional x ∧ postprocess_notional x ≤ 99900000) := by
  have hn := h.2.2.2.1
  refine ⟨?_, Int.mul_emod_left _ _, ?_⟩
  · rw [gen_notional]
    refine ⟨Int.mul_emod_left _ _, by omega, by omega⟩
  · have hpos : (0 : ℚ) < 100000 := by norm_num
    have h10 : ((10 : ℤ) : ℚ) ≤ x / 100000 := by
      rw [le_div_iff₀ hpos]; push_cast; linarith [hx.1]
    have h999 : x / 100000 ≤ ((999 : ℤ) : ℚ) := by
      rw [div_le_iff₀ hpos]; push_cast; linarith [hx.2]
    have hlo : (10 : ℤ) ≤ pyRound (x / 100000) := le_pyRound _ 10 h10
    have hhi : pyRound (x / 100000) ≤ 999 := pyRound_le _ 999 h999
    unfold postprocess_notional
    omega

/-- Witness for `C7_amended_notional` at concrete draws and a concrete
synthesized notional. -/
theorem C7_amended_notional_witness :
    (Draws.valid gGoodL3 false true ∧
      ((1000000 : ℚ) ≤ 5000000 ∧ (5000000 : ℚ) ≤ 99900000)) ∧
    (((generate_trade 0 5 false true gGoodL3).notional % 100000 = 0 ∧
      1000000 ≤ (generate_trade 0 5 false true gGoodL3).notional ∧
      (generate_trade 0 5 false true gGoodL3).notional ≤ 99900000) ∧
    (postprocess_notional 7 % 100000 = 0) ∧
    (1000000 ≤ postprocess_notional 5000000 ∧
      postprocess_notional 5000000 ≤ 99900000)) :=
  ⟨⟨by decide, by decide⟩,
    C7_amended_notional 0 5 false true gGoodL3 (by decide) 5000000 7 (by decide)⟩

/-! ## The driver's seed dataset -/

lemma build_day2 (today : ℤ) (gs : ℕ → Draws) (x : ℕ × Bool × Bool × String) :
    (buildSeedRecord today gs x).Day2_Pnl_Above_Threshold = x.2.2.2 := rfl

lemma build_currency (today : ℤ) (gs : ℕ → Draws) (x : ℕ × Bool × Bool × String) :
    (buildSeedRecord today gs x).currency =
      (generate_trade today x.1 x.2.1 x.2.2.1 (gs x.1)).currency := rfl

lemma build_strike (today : ℤ) (gs : ℕ → Draws) (x : ℕ × Bool × Bool × String) :
    (buildSeedRecord today gs x).strike =
      (generate_trade today x.1 x.2.1 x.2.2.1 (gs x.1)).strike := rfl

lemma build_level (today : ℤ) (gs : ℕ → Draws) (x : ℕ × Bool × Bool × String) :
    (buildSeedRecord today gs x).ifrs13_level =
      (generate_trade today x.1 x.2.1 x.2.2.1 (gs x.1)).ifrs13_level := rfl

set_option maxRecDepth 1000000 in
/-- C5: with `NUM_TRADES = 1000` and the 0.8 bias ratio the driver plans
exactly 800 `force_usd_level2=True` calls and 200 `force_level3=True` calls;
within the forced Level 3 calls exactly 30 get `Day2_Pnl_Above_Threshold =
"Yes"` and 170 get `"No"`, and all 800 forced Level 2 calls get `"No"`; the
built dataset has 1000 records, 30 of which carry the `"Yes"` flag. -/
theorem C5_driver_counts (today : ℤ) (gs : ℕ → Draws) :
    (seedPlan 1000).countP (fun x => x.2.1) = 800 ∧
    (seedPlan 1000).countP (fun x => x.2.2.1) = 200 ∧
    (seedPlan 1000).countP (fun x => x.2.2.1 && (x.2.2.2 == "Yes")) = 30 ∧
    (seedPlan 1000).countP (fun x => x.2.2.1 && (x.2.2.2 == "No")) = 170 ∧
    (seedPlan 1000).countP (fun x => x.2.1 && (x.2.2.2 == "No")) = 800 ∧
    (seedData today 1000 gs).length = 1000 ∧
    (seedData today 1000 gs).countP
      (fun r => r.Day2_Pnl_Above_Threshold == "Yes") = 30 := by
  refine ⟨by decide, by decide, by decide, by decide, by decide, ?_, ?_⟩
  · simp only [seedData, List.length_map]
    decide
  · simp only [seedData, List.countP_map]
    have hc : ((fun r : TradeRecord => r.Day2_Pnl_Above_Threshold == "Yes") ∘
        buildSeedRecord today gs) = fun x => x.2.2.2 == "Yes" := rfl
    rw [hc]
    decide

lemma countP_plan_all_true (today : ℤ) (gs : ℕ → Draws) (p : TradeRecord → Bool)
    (t : Bool × Bool × String) (l : List ℕ)
    (h : ∀ i ∈ l, p (buildSeedRecord today gs (i, t)) = true) :
    ((l.map (fun i => (i, t))).map (buildSeedRecord today gs)).countP p =
      l.length := by
  rw [List.countP_map, List.countP_map, List.countP_eq_length]
  intro a ha
  exact h a ha

lemma countP_plan_all_false (today : ℤ) (gs : ℕ → Draws) (p : TradeRecord → Bool)
    (t : Bool × Bool × String) (l : List ℕ)
    (h : ∀ i ∈ l, p (buildSeedRecord today gs (i, t)) = false) :
    ((l.map (fun i => (i, t))).map (buildSeedRecord today gs)).countP p = 0 := by
  rw [List.countP_map, List.countP_map, List.countP_eq_zero]
  intro a ha
  have hp := h a ha
  simp only [Function.comp_apply]
  simp [hp]

/-- C6: with `NUM_TRADES = 10` and bias ratio 0.8, for every outcome of the
(in-range) random draws the seed generator yields exactly 8 records with
`currency = "USD"` and `strike < 3.0` and exactly 2 records with currency in
`{EUR, GBP, JPY}` and `strike > 3.0`. -/
theorem C6_ten_trade_split (today : ℤ) (gs : ℕ → Draws)
    (h : ∀ x ∈ seedPlan 10, Draws.valid (gs x.1) x.2.1 x.2.2.1) :
    (seedData today 10 gs).countP
      (fun r => (r.currency == "USD") && decide (r.strike < 3)) = 8 ∧
    (seedData today 10 gs).countP
      (fun r => ((r.currency == "EUR") || (r.currency == "GBP") ||
        (r.currency == "JPY")) && decide ((3 : ℚ) < r.strike)) = 2 := by
  have e : seedPlan 10 =
      (List.range' 1 8).map
        (fun i => (i, ((true, false, "No") : Bool × Bool × String))) ++
      (List.range' 9 2).map
        (fun i => (i, ((false, true, "No") : Bool × Bool × String))) := by decide
  have hL2 : ∀ i ∈ List.range' 1 8, Draws.valid (gs i) true false := by
    intro i hi
    have hx : ((i, true, false, "No") : ℕ × Bool × Bool × String) ∈
        seedPlan 10 := by
      rw [e]; exact List.mem_append_left _ (List.mem_map_of_mem _ hi)
    exact h _ hx
  have hL3 : ∀ i ∈ List.range' 9 2, Draws.valid (gs i) false true := by
    intro i hi
    have hx : ((i, false, true, "No") : ℕ × Bool × Bool × String) ∈
        seedPlan 10 := by
      rw [e]; exact List.mem_append_right _ (List.mem_map_of_mem _ hi)
    exact h _ hx
  constructor
  · simp only [seedData]
    rw [e, List.map_append, List.countP_append]
    have c1 := countP_plan_all_true today gs
      (fun r => (r.currency == "USD") && decide (r.strike < 3))
      (true, false, "No") (List.range' 1 8) ?_
    · have c2 := countP_plan_all_false today gs
        (fun r => (r.currency == "USD") && decide (r.strike < 3))
        (false, true, "No") (List.range' 9 2) ?_
      · rw [c1, c2, List.length_range']
      · intro i _
        have hc : (buildSeedRecord today gs (i, false, true, "No")).currency =
            (["EUR", "GBP", "JPY"] : List String).get (gs i).currencyIdx3 :=
          gen_l3_currency today i (gs i)
        rcases fin3_currency_cases (gs i).currencyIdx3 with h3 | h3 | h3 <;>
          · beta_reduce; rw [hc, h3]; rfl
    · intro i hi
      have hcur : (buildSeedRecord today gs (i, true, false, "No")).currency =
          "USD" := gen_l2_currency today i false (gs i)
      have hstr : (buildSeedRecord today gs (i, true, false, "No")).strike < 3 :=
        gen_l2_strike_lt_three today i (gs i) (hL2 i hi)
      rw [Bool.and_eq_true, beq_iff_eq, decide_eq_true_eq]
      exact ⟨hcur, hstr⟩
  · simp only [seedData]
    rw [e, List.map_append, List.countP_append]
    have c1 := countP_plan_all_false today gs
      (fun r => ((r.currency == "EUR") || (r.currency == "GBP") ||
        (r.currency == "JPY")) && decide ((3 : ℚ) < r.strike))
      (true, false, "No") (List.range' 1 8) ?_
    · have c2 := countP_plan_all_true today gs
        (fun r => ((r.currency == "EUR") || (r.currency == "GBP") ||
          (r.currency == "JPY")) && decide ((3 : ℚ) < r.strike))
        (false, true, "No") (List.range' 9 2) ?_
      · rw [c1, c2, List.length_range']
      · intro i hi
        have hstr : (3 : ℚ) <
            (buildSeedRecord today gs (i, false, true, "No")).strike :=
          gen_l3_strike_gt_three today i (gs i) (hL3 i hi)
        have hc : (buildSeedRecord today gs (i, false, true, "No")).currency =
            (["EUR", "GBP", "JPY"] : List String).get (gs i).currencyIdx3 :=
          gen_l3_currency today i (gs i)
        rw [Bool.and_eq_true, decide_eq_true_eq]
        refine ⟨?_, hstr⟩
        rcases fin3_currency_cases (gs i).currencyIdx3 with h3 | h3 | h3 <;>
          · rw [hc, h3]; rfl
    · intro i _
      have hcur : (buildSeedRecord today gs (i, true, false, "No")).currency =
          "USD" := gen_l2_currency today i false (gs i)
      beta_reduce
      rw [hcur]
      rfl

/-- The draws used by the concrete `NUM_TRADES = 10` witness run: in-range
Level 2 draws for the first eight calls, in-range Level 3 draws after. -/
def gsW10 : ℕ → Draws := fun i => if i ≤ 8 then gBadL2 else gGoodL3

/-- Witness for `C6_ten_trade_split` at concrete draws. -/
theorem C6_ten_trade_split_witness :
    (seedData 0 10 gsW10).countP
      (fun r => (r.currency == "USD") && decide (r.strike < 3)) = 8 ∧
    (seedData 0 10 gsW10).countP
      (fun r => ((r.currency == "EUR") || (r.currency == "GBP") ||
        (r.currency == "JPY")) && decide ((3 : ℚ) < r.strike)) = 2 :=
  C6_ten_trade_split 0 gsW10 (by decide)

/-- C9: every seed record carrying `Day2_Pnl_Above_Threshold = "Yes"` is
labeled `ifrs13_level = "Level 3"`: the driver assigns `"Yes"` only inside the
forced Level 3 loop, whose records are always labeled Level 3. -/
theorem C9_yes_implies_level3 (today : ℤ) (numTrades : ℕ) (gs : ℕ → Draws)
    (r : TradeRecord) (hr : r ∈ seedData today numTrades gs)
    (hy : r.Day2_Pnl_Above_Threshold = "Yes") :
    r.ifrs13_level = "Level 3" := by
  unfold seedData at hr
  obtain ⟨x, hx, rfl⟩ := List.mem_map.mp hr
  unfold seedPlan at hx
  rcases List.mem_append.mp hx with hx12 | hx3
  · rcases List.mem_append.mp hx12 with hx1 | hx2
    · obtain ⟨i, _, rfl⟩ := List.mem_map.mp hx1
      rw [build_day2] at hy
      have hne : ("No" : String) ≠ "Yes" := by decide
      exact absurd hy hne
    · obtain ⟨i, _, rfl⟩ := List.mem_map.mp hx2
      rw [build_level]
      exact gen_l3_level today i (gs i)
  · obtain ⟨i, _, rfl⟩ := List.mem_map.mp hx3
    rw [build_level]
    exact gen_l3_level today i (gs i)

/-- Witness for `C9_yes_implies_level3`: with 34 trades the driver plans one
`"Yes"` record (seq_id 28), and it is labeled Level 3. -/
theorem C9_yes_implies_level3_witness :
    buildSeedRecord 0 (fun _ => gGoodL3) (28, false, true, "Yes") ∈
      seedData 0 34 (fun _ => gGoodL3) ∧
    (buildSeedRecord 0 (fun _ => gGoodL3)
      (28, false, true, "Yes")).Day2_Pnl_Above_Threshold = "Yes" ∧
    (buildSeedRecord 0 (fun _ => gGoodL3)
      (28, false, true, "Yes")).ifrs13_level = "Level 3" := by
  have hmem : ((28, false, true, "Yes") : ℕ × Bool × Bool × String) ∈
      seedPlan 34 := by decide
  exact ⟨List.mem_map_of_mem _ hmem, rfl,
    C9_yes_implies_level3 0 34 (fun _ => gGoodL3) _
      (List.mem_map_of_mem _ hmem) rfl⟩
